import Mathlib

/-
Verification development for the jobbinex-admin repository.

The repository is a React/TypeScript administrative console with four
list-bearing views (Admins, Users, Assistants, Payments).  Each view
follows the same pattern: fetch a collection, normalize the response
envelope, filter/paginate client-side, and dispatch mutating actions
(delete admin, verify payment).

This file gives a shallow embedding of that logic:
  * raw API responses are modelled by a small JSON value type;
  * the four response normalizers (extract*FromResponse) are translated
    line by line from the source;
  * records are modelled as structures whose display fields are Option
    valued, because the normalizers perform no runtime validation and
    the code itself guards most field accesses with JavaScript
    falsiness fallbacks (x || d);
  * timestamps are modelled as Int milliseconds since the epoch in the
    viewer local time zone, with midnight-aligned day boundaries and a
    fixed day length (no DST transition inside the window);
  * the fetch success / error continuations, the filter effects and the
    action dispatchers are modelled as pure state transformers;
  * a JavaScript runtime TypeError (calling a method on undefined) is
    modelled by the none case of an Option valued computation.
-/

/-- A JSON-like value, the shape of a raw axios response body. -/
inductive Json where
  | null
  | bool (b : Bool)
  | num (n : Int)
  | str (s : String)
  | arr (xs : List Json)
  | obj (fields : List (String × Json))
deriving Repr

/-- Property access `v?.k` : named fields exist only on objects;
on arrays, strings, numbers and null it yields undefined (none). -/
def Json.getField : Json → String → Option Json
  | .obj fields, k => fields.lookup k
  | _, _ => none

/-- Models `Array.isArray(v) ? v : undefined`. -/
def Json.asArray : Json → Option (List Json)
  | .arr xs => some xs
  | _ => none

/-- JavaScript truthiness of a JSON value. -/
def Json.truthy : Json → Bool
  | .null => false
  | .bool b => b
  | .num n => n != 0
  | .str s => s != ""
  | _ => true

/-- From part_000 lines 39-59 (AdminsPage).  Ordered envelope cascade:
bare array, `admins` field, `users` field, `data` field, then the
nested `data.admins` sequence guarded by truthiness of `data`;
otherwise empty.  Total: it never throws. -/
def extractAdminsFromResponse (response : Json) : List Json :=
  match response.asArray with
  | some xs => xs
  | none =>
  match (response.getField "admins").bind Json.asArray with
  | some xs => xs
  | none =>
  match (response.getField "users").bind Json.asArray with
  | some xs => xs
  | none =>
  match (response.getField "data").bind Json.asArray with
  | some xs => xs
  | none =>
  match response.getField "data" with
  | some d =>
    if d.truthy then
      match (d.getField "admins").bind Json.asArray with
      | some xs => xs
      | none => []
    else []
  | none => []

/-- From src/pages/Users.tsx lines 123-129 (UsersPage).  Only the
`data` field sequence is accepted; every other shape, including a bare
array, yields the empty list. -/
def extractUsersFromResponse (response : Json) : List Json :=
  match (response.getField "data").bind Json.asArray with
  | some xs => xs
  | none => []

/-- From part_001 lines 96-104 (AssistantsPage).  Identical cascade to
the users normalizer: only the `data` field sequence is accepted. -/
def extractAssistantsFromResponse (response : Json) : List Json :=
  match (response.getField "data").bind Json.asArray with
  | some xs => xs
  | none => []

/-- From src/pages/Users.tsx lines 1000-1012 (PaymentsPage).  Bare
array, `payments` field, `data` field; there is no nested-payload
branch on this page. -/
def extractPaymentsFromResponse (response : Json) : List Json :=
  match response.asArray with
  | some xs => xs
  | none =>
  match (response.getField "payments").bind Json.asArray with
  | some xs => xs
  | none =>
  match (response.getField "data").bind Json.asArray with
  | some xs => xs
  | none => []

/-- C1 counterexample: the claim asserts that for every record kind the
normalizer accepts all four envelope shapes, in particular the bare
sequence.  The users normalizer, given the bare sequence `[1]`, returns
the empty sequence instead of the contained records. -/
theorem users_normalizer_rejects_bare_array :
    extractUsersFromResponse (Json.arr [Json.num 1]) = [] ∧
    extractUsersFromResponse (Json.arr [Json.num 1]) ≠ [Json.num 1] := by
  constructor
  · rfl
  · intro h
    simp [extractUsersFromResponse, Json.getField] at h

/-- C1 (amended): each normalizer returns the contained records
unchanged and in order for exactly the envelope shapes its cascade
accepts, and the empty sequence otherwise, never throwing.  The admins
normalizer accepts all four shapes (bare sequence, `admins`/`users`
named field, `data` field, nested `data.admins`); the users and
assistants normalizers accept only the `data` field shape and reject
even a bare sequence; the payments normalizer accepts the bare
sequence, the `payments` field and the `data` field but not the nested
payload shape. -/
theorem normalizer_envelope_shapes (xs : List Json) (r : Json) :
    extractAdminsFromResponse (Json.arr xs) = xs ∧
    extractAdminsFromResponse (Json.obj [("admins", Json.arr xs)]) = xs ∧
    extractAdminsFromResponse (Json.obj [("users", Json.arr xs)]) = xs ∧
    extractAdminsFromResponse (Json.obj [("data", Json.arr xs)]) = xs ∧
    extractAdminsFromResponse
      (Json.obj [("data", Json.obj [("admins", Json.arr xs)])]) = xs ∧
    (r.asArray = none → r.getField "admins" = none →
      r.getField "users" = none → r.getField "data" = none →
      extractAdminsFromResponse r = []) ∧
    extractUsersFromResponse (Json.obj [("data", Json.arr xs)]) = xs ∧
    extractUsersFromResponse (Json.arr xs) = [] ∧
    (r.getField "data" = none → extractUsersFromResponse r = []) ∧
    extractAssistantsFromResponse (Json.obj [("data", Json.arr xs)]) = xs ∧
    extractAssistantsFromResponse (Json.arr xs) = [] ∧
    (r.getField "data" = none → extractAssistantsFromResponse r = []) ∧
    extractPaymentsFromResponse (Json.arr xs) = xs ∧
    extractPaymentsFromResponse (Json.obj [("payments", Json.arr xs)]) = xs ∧
    extractPaymentsFromResponse (Json.obj [("data", Json.arr xs)]) = xs ∧
    extractPaymentsFromResponse
      (Json.obj [("data", Json.obj [("payments", Json.arr xs)])]) = [] ∧
    (r.asArray = none → r.getField "payments" = none →
      r.getField "data" = none → extractPaymentsFromResponse r = []) := by
  refine ⟨rfl, rfl, rfl, rfl, rfl, ?_, rfl, rfl, ?_, rfl, rfl, ?_, rfl, rfl,
    rfl, rfl, ?_⟩
  · intro h1 h2 h3 h4
    simp [extractAdminsFromResponse, h1, h2, h3, h4]
  · intro h
    simp [extractUsersFromResponse, h]
  · intro h
    simp [extractAssistantsFromResponse, h]
  · intro h1 h2 h3
    simp [extractPaymentsFromResponse, h1, h2, h3]

/-- C1 witness: the amended theorem applied at the concrete list `[1]`
and the concrete non-envelope response `null`, discharging every
hypothesis there. -/
theorem normalizer_envelope_shapes_witness :
    extractAdminsFromResponse (Json.arr [Json.num 1]) = [Json.num 1] ∧
    extractAdminsFromResponse Json.null = [] ∧
    extractPaymentsFromResponse Json.null = [] := by
  have h := normalizer_envelope_shapes [Json.num 1] Json.null
  exact ⟨h.1, h.2.2.2.2.2.1 rfl rfl rfl rfl,
    h.2.2.2.2.2.2.2.2.2.2.2.2.2.2.2.2 rfl rfl rfl⟩

/-
JavaScript falsiness helpers.  In the source, display fields are read
from unvalidated response data, so a field may be absent (undefined) at
runtime even when the TypeScript annotation marks it required; the code
itself guards most accesses with `x || fallback`.  Absent is modelled
as none; `x || d` on a string-or-undefined is jsOr.
-/

/-- Models `x || d` for a string field: undefined and the empty string
are falsy and fall back to `d`. -/
def jsOr (x : Option String) (d : String) : String :=
  match x with
  | some s => if s = "" then d else s
  | none => d

/-- Models a template literal slot `${x}`: undefined prints as the
string `undefined` and does not throw. -/
def jsTpl (x : Option String) : String :=
  match x with
  | some s => s
  | none => "undefined"

/-- Truthiness of a string-or-undefined value. -/
def jsOptTruthy (x : Option String) : Bool :=
  match x with
  | some s => s != ""
  | none => false

/-- Whether `t` is a prefix of `s`, over character lists. -/
def listPrefixOf : List Char → List Char → Bool
  | [], _ => true
  | _ :: _, [] => false
  | c :: cs, d :: ds => c == d && listPrefixOf cs ds

/-- Whether `t` occurs contiguously inside `s`, over character lists. -/
def listHasSub (t : List Char) : List Char → Bool
  | [] => t.isEmpty
  | c :: rest => listPrefixOf t (c :: rest) || listHasSub t rest

/-- Models `s.includes(t)`: the empty needle always matches, otherwise
`t` occurs as a contiguous substring of `s`. -/
def strIncludes (s t : String) : Bool :=
  listHasSub t.data s.data

/-- Models `s.toLowerCase()` (character-wise lowering). -/
def strLower (s : String) : String :=
  String.mk (s.data.map Char.toLower)

/-- A whitespace character as removed by `String.prototype.trim`. -/
def isWsChar (c : Char) : Bool :=
  c == ' ' || c == '\t' || c == '\n' || c == '\r'

/-- Models `s.trim()`: strips leading and trailing whitespace. -/
def jsTrim (s : String) : String :=
  String.mk (((s.data.dropWhile isWsChar).reverse.dropWhile isWsChar).reverse)

/-- Models `x || d` for a number field: undefined and 0 are falsy and
fall back to `d`. -/
def jsNumOr (x : Option Int) (d : Int) : Int :=
  match x with
  | some v => if v = 0 then d else v
  | none => d

/-
Record structures.  Field names follow the TypeScript interfaces;
display fields are Option valued (see above), creation timestamps are
Int epoch milliseconds.
-/

/-- AdminRecord, from the Admin interface of part_000. -/
structure Admin where
  _id : String
  firstname : Option String := none
  lastname : Option String := none
  email : Option String := none
  phonenumber : Option String := none
  role : Option String := none
deriving Repr, DecidableEq

/-- The subscription plan object of a user. -/
structure Plan where
  name : Option String := none
  expiresAt : Option String := none
deriving Repr, DecidableEq

/-- UserRecord, from the User interface of src/pages/Users.tsx. -/
structure User where
  _id : String
  firstname : Option String := none
  lastname : Option String := none
  email : Option String := none
  phonenumber : Option String := none
  preferredIndustries : Option String := none
  preferredRoles : Option String := none
  preferredLocations : Option String := none
  plan : Option Plan := none
  assistant : Option String := none
  jobs : List String := []
  createdAt : Option Int := none
deriving Repr, DecidableEq

/-- The assistant status enumeration. -/
inductive AStatus where
  | online
  | offline
  | busy
  | away
deriving Repr, DecidableEq

/-- AssistantRecord, from the Assistant interface of part_001. -/
structure Assistant where
  _id : String
  firstname : Option String := none
  lastname : Option String := none
  email : Option String := none
  status : Option AStatus := none
  clients : List String := []
  jobs : List String := []
  messages : List String := []
  createdAt : Option Int := none
deriving Repr, DecidableEq

/-- The payment status enumeration. -/
inductive PayStatus where
  | pending
  | processing
  | completed
  | failed
  | canceled
deriving Repr, DecidableEq

/-- PaymentRecord, from the Payment interface of src/pages/Users.tsx
(payments section). -/
structure Payment where
  _id : String
  userId : Option String := none
  userFirstName : Option String := none
  userLastName : Option String := none
  userEmail : Option String := none
  userPhone : Option String := none
  planName : Option String := none
  planPrice : Option Int := none
  planDuration : Option String := none
  amount : Option Int := none
  currency : Option String := none
  status : Option PayStatus := none
  paymentMethod : Option String := none
  stripeSessionId : Option String := none
  stripePaymentIntentId : Option String := none
  createdAt : Option Int := none
deriving Repr, DecidableEq

namespace UsersPage

/-- Users.tsx line 67: name with per-part fallbacks. -/
def getSafeUserName (u : User) : String :=
  jsOr u.firstname "Unknown" ++ " " ++ jsOr u.lastname "User"

/-- Users.tsx line 77. -/
def getSafeEmail (u : User) : String :=
  jsOr u.email "N/A"

/-- Users.tsx line 81. -/
def getSafePhone (u : User) : String :=
  jsOr u.phonenumber "N/A"

/-- Users.tsx line 85: `user.plan?.name || "No Plan"`. -/
def getSafePlanName (u : User) : String :=
  jsOr (u.plan.bind Plan.name) "No Plan"

/-- Users.tsx line 106. -/
def getSafeIndustries (u : User) : String :=
  jsOr u.preferredIndustries "Not specified"

/-- Users.tsx line 110. -/
def getSafeRoles (u : User) : String :=
  jsOr u.preferredRoles "Not specified"

/-- Users.tsx line 114. -/
def getSafeLocations (u : User) : String :=
  jsOr u.preferredLocations "Not specified"

/-- Users.tsx line 118: `user.assistant ? "Yes" : "No"`. -/
def getHasAssistant (u : User) : String :=
  if jsOptTruthy u.assistant then "Yes" else "No"

/-- Users.tsx line 102: `user.createdAt || new Date().toISOString()`;
an absent creation timestamp falls back to the current instant. -/
def getSafeCreatedAt (u : User) (nowMs : Int) : Int :=
  u.createdAt.getD nowMs

end UsersPage

namespace AssistantsPage

/-- part_001 line 59. -/
def getSafeAssistantName (a : Assistant) : String :=
  jsOr a.firstname "Unknown" ++ " " ++ jsOr a.lastname "Assistant"

/-- part_001 line 71. -/
def getSafeEmail (a : Assistant) : String :=
  jsOr a.email "N/A"

/-- part_001 line 75: an absent status defaults to offline. -/
def getSafeStatus (a : Assistant) : AStatus :=
  a.status.getD AStatus.offline

/-- part_001 line 91. -/
def getSafeCreatedAt (a : Assistant) (nowMs : Int) : Int :=
  a.createdAt.getD nowMs

end AssistantsPage

namespace PaymentsPage

/-- Users.tsx line 951 (payments section). -/
def getSafeUserName (p : Payment) : String :=
  jsOr p.userFirstName "Unknown" ++ " " ++ jsOr p.userLastName "User"

/-- Users.tsx line 963. -/
def getSafeEmail (p : Payment) : String :=
  jsOr p.userEmail "N/A"

/-- Users.tsx line 967. -/
def getSafePhone (p : Payment) : String :=
  jsOr p.userPhone "N/A"

/-- Users.tsx line 971. -/
def getSafePlanName (p : Payment) : String :=
  jsOr p.planName "Unknown Plan"

/-- Users.tsx line 975: `payment.amount || payment.planPrice || 0`;
absent or zero amount falls back to the plan price, then to zero. -/
def getSafeAmount (p : Payment) : Int :=
  jsNumOr p.amount (jsNumOr p.planPrice 0)

/-- Users.tsx line 979: default currency. -/
def getSafeCurrency (p : Payment) : String :=
  jsOr p.currency "GBP"

/-- Users.tsx line 983: an absent status defaults to pending. -/
def getSafeStatus (p : Payment) : PayStatus :=
  p.status.getD PayStatus.pending

/-- Users.tsx line 989. -/
def getSafeCreatedAt (p : Payment) (nowMs : Int) : Int :=
  p.createdAt.getD nowMs

/-- Users.tsx line 993: first truthy of session id, intent id, _id. -/
def getTransactionId (p : Payment) : String :=
  jsOr p.stripeSessionId (jsOr p.stripePaymentIntentId p._id)

end PaymentsPage

namespace AdminsPage

/-- part_000 lines 121-131: the search predicate of `filteredAdmins`.
The name template tolerates missing parts (template literal), and
`phonenumber` and `role` are guarded with `|| ""`, but `admin.email`
is lowercased bare: on a record whose email is absent the expression
`admin.email.toLowerCase()` throws a TypeError, modelled as none.
The disjunction short-circuits left to right as in JavaScript, so the
email access is only reached when the name did not match. -/
def adminMatches (a : Admin) (searchTerm : String) : Option Bool :=
  let t := strLower searchTerm
  if strIncludes (strLower (jsTpl a.firstname ++ " " ++ jsTpl a.lastname)) t then
    some true
  else
    match a.email with
    | none => none
    | some e =>
      if strIncludes (strLower e) t then some true
      else
        some (strIncludes (strLower (jsOr a.phonenumber "")) t ||
              strIncludes (strLower (jsOr a.role "")) t)

/-- part_000 line 120: `admins.filter(...)`, evaluated left to right;
a thrown TypeError aborts the whole filter (none). -/
def filteredAdminsRun (admins : List Admin) (searchTerm : String) :
    Option (List Admin) :=
  match admins with
  | [] => some []
  | a :: rest => do
    let hit ← adminMatches a searchTerm
    let tail ← filteredAdminsRun rest searchTerm
    pure (if hit then a :: tail else tail)

end AdminsPage

/-- An admin record whose email is absent at runtime; the normalizer
performs no validation, so such a record flows into the view state. -/
def adminMissingEmail : Admin :=
  { _id := "a1", firstname := some "Alice", lastname := some "Doe",
    phonenumber := some "123", role := some "admin" }

/-- C2: every accessor with a defined fallback yields its documented
defined display value when the underlying field is missing, for all
records; but the admin search pipeline is not crash-free: on a record
whose email is absent and whose name does not contain the search term,
`admin.email.toLowerCase()` throws (the run evaluates to none), against
the spec requirement that the pipeline never crash on partial data. -/
theorem accessors_fallback_and_admin_filter_crash :
    (∀ u : User, UsersPage.getSafeEmail { u with email := none } = "N/A") ∧
    (∀ u : User, UsersPage.getSafePhone { u with phonenumber := none } = "N/A") ∧
    (∀ u : User, UsersPage.getSafePlanName { u with plan := none } = "No Plan") ∧
    (∀ u : User,
      UsersPage.getSafeUserName { u with firstname := none, lastname := none } =
        "Unknown User") ∧
    (∀ u : User,
      UsersPage.getSafeIndustries { u with preferredIndustries := none } =
        "Not specified") ∧
    (∀ a : Assistant,
      AssistantsPage.getSafeStatus { a with status := none } = AStatus.offline) ∧
    (∀ a : Assistant,
      AssistantsPage.getSafeEmail { a with email := none } = "N/A") ∧
    (∀ p : Payment,
      PaymentsPage.getSafeStatus { p with status := none } = PayStatus.pending) ∧
    (∀ p : Payment,
      PaymentsPage.getSafeCurrency { p with currency := none } = "GBP") ∧
    (∀ p : Payment,
      PaymentsPage.getSafeAmount { p with amount := none, planPrice := none } = 0) ∧
    AdminsPage.filteredAdminsRun [adminMissingEmail] "zz" = none := by
  refine ⟨fun u => rfl, fun u => rfl, fun u => rfl, fun u => rfl, fun u => rfl,
    fun a => rfl, fun a => rfl, fun p => rfl, fun p => rfl, fun p => rfl, ?_⟩
  decide

/-
Fetch continuations.  An axios call resolves either with a response
body (ok) or rejects with an HTTP status (error); each page reacts by
setting its collection state and possibly navigating.  JavaScript
`Array.prototype.reverse` reverses in place and returns the same array,
so on the pages that reverse, both the raw and the filtered state cells
receive the reversed list.
-/

/-- State of the admins view after one fetch settles. -/
structure AdminsFetchOutcome where
  admins : List Json
  redirect : Option String
deriving Repr

/-- part_000 lines 61-84: success stores the normalized list with no
reversal; failure empties the collection and navigates to /login
exactly when the status is 401. -/
def fetchAdminsStep : Except Nat Json → AdminsFetchOutcome
  | .ok body => { admins := extractAdminsFromResponse body, redirect := none }
  | .error status =>
      { admins := [],
        redirect := if status = 401 then some "/login" else none }

/-- State of the users view after one fetch settles. -/
structure UsersFetchOutcome where
  users : List Json
  filteredUsers : List Json
  redirect : Option String
deriving Repr

/-- Users.tsx lines 131-165: success stores the reversed list in both
cells (in-place reverse); failure empties both cells and, for every
status including 401, only shows a message and never navigates. -/
def fetchUsersStep : Except Nat Json → UsersFetchOutcome
  | .ok body =>
      let l := (extractUsersFromResponse body).reverse
      { users := l, filteredUsers := l, redirect := none }
  | .error _ =>
      { users := [], filteredUsers := [], redirect := none }

/-- State of the assistants view after one fetch settles. -/
structure AssistantsFetchOutcome where
  assistants : List Json
  filteredAssistants : List Json
  redirect : Option String
deriving Repr

/-- part_001 lines 106-143: success stores the reversed list in both
cells; failure empties both cells and never navigates (the page does
not even import a navigator). -/
def fetchAssistantsStep : Except Nat Json → AssistantsFetchOutcome
  | .ok body =>
      let l := (extractAssistantsFromResponse body).reverse
      { assistants := l, filteredAssistants := l, redirect := none }
  | .error _ =>
      { assistants := [], filteredAssistants := [], redirect := none }

/-- State of the payments view after one fetch settles. -/
structure PaymentsFetchOutcome where
  payments : List Json
  filteredPayments : List Json
  redirect : Option String
deriving Repr

/-- Users.tsx lines 1014-1039 (payments section): success stores the
reversed list in both cells; failure empties both cells and navigates
to / exactly when the status is 401. -/
def fetchPaymentsStep : Except Nat Json → PaymentsFetchOutcome
  | .ok body =>
      let l := (extractPaymentsFromResponse body).reverse
      { payments := l, filteredPayments := l, redirect := none }
  | .error status =>
      { payments := [], filteredPayments := [],
        redirect := if status = 401 then some "/" else none }

/-
Date-range filter.  Timestamps are Int epoch milliseconds in the
viewer local time zone; `today0` is the most recent local midnight
(`new Date(y, m, d)`), and the `setDate` offsets are whole days.
-/

/-- One day in milliseconds. -/
def dayMs : Int := 86400000

/-- The date-bucket switch shared verbatim by the users (Users.tsx
lines 222-237), assistants (part_001 lines 186-201) and payments
(Users.tsx lines 1087-1102) filter effects: `today` keeps timestamps
at or after the last midnight; `yesterday` keeps the 24-hour window
before it; `last7` and `last30` look back 7 and 30 days from it; any
other value (the switch default) keeps everything. -/
def dateFilterHit (dateFilter : String) (today0 d : Int) : Bool :=
  if dateFilter = "today" then decide (d ≥ today0)
  else if dateFilter = "yesterday" then
    decide (d ≥ today0 - dayMs) && decide (d < today0)
  else if dateFilter = "last7" then decide (d ≥ today0 - 7 * dayMs)
  else if dateFilter = "last30" then decide (d ≥ today0 - 30 * dayMs)
  else true

namespace UsersPage

/-- Users.tsx lines 176-195: the free-text search disjunction over the
safe accessors, all lowercased. -/
def userSearchHit (u : User) (searchLower : String) : Bool :=
  strIncludes (strLower (getSafeUserName u)) searchLower ||
  strIncludes (strLower (getSafeEmail u)) searchLower ||
  strIncludes (strLower (getSafePhone u)) searchLower ||
  strIncludes (strLower (getSafeIndustries u)) searchLower ||
  strIncludes (strLower (getSafeRoles u)) searchLower ||
  strIncludes (strLower (getSafeLocations u)) searchLower

/-- Users.tsx lines 198-209: the plan filter; `active` requires both a
plan name and an expiry, `none` requires no plan name, anything else is
a substring match on the lowercased safe plan name. -/
def userPlanHit (u : User) (planFilter : String) : Bool :=
  if planFilter = "active" then
    jsOptTruthy (u.plan.bind Plan.name) && jsOptTruthy (u.plan.bind Plan.expiresAt)
  else if planFilter = "none" then
    !jsOptTruthy (u.plan.bind Plan.name)
  else
    strIncludes (strLower (getSafePlanName u)) (strLower planFilter)

/-- Users.tsx lines 172-242: the filter effect.  Starting from the raw
store it applies search, plan and date stages, each skipped on its
bypass value, and finishes with `setCurrentPage(1)`; the pair is the
new `(filteredUsers, currentPage)` state. -/
def applyUsersFilters (users : List User) (searchTerm planFilter dateFilter : String)
    (today0 nowMs : Int) : List User × Nat :=
  let r1 := if searchTerm ≠ "" then
      users.filter (fun u => userSearchHit u (strLower searchTerm))
    else users
  let r2 := if planFilter ≠ "all" then
      r1.filter (fun u => userPlanHit u planFilter)
    else r1
  let r3 := if dateFilter ≠ "all" then
      r2.filter (fun u => dateFilterHit dateFilter today0 (getSafeCreatedAt u nowMs))
    else r2
  (r3, 1)

end UsersPage

namespace AssistantsPage

/-- part_001 lines 154-165: search over safe name and email. -/
def assistantSearchHit (a : Assistant) (searchLower : String) : Bool :=
  strIncludes (strLower (getSafeAssistantName a)) searchLower ||
  strIncludes (strLower (getSafeEmail a)) searchLower

/-- The display string of an assistant status. -/
def statusStr : AStatus → String
  | .online => "online"
  | .offline => "offline"
  | .busy => "busy"
  | .away => "away"

/-- part_001 lines 168-173: exact match on the lowercased status. -/
def assistantStatusHit (a : Assistant) (statusFilter : String) : Bool :=
  strLower (statusStr (getSafeStatus a)) == strLower statusFilter

/-- part_001 lines 150-206: the filter effect, ending with
`setCurrentPage(1)`. -/
def applyAssistantsFilters (assistants : List Assistant)
    (searchTerm statusFilter dateFilter : String) (today0 nowMs : Int) :
    List Assistant × Nat :=
  let r1 := if searchTerm ≠ "" then
      assistants.filter (fun a => assistantSearchHit a (strLower searchTerm))
    else assistants
  let r2 := if statusFilter ≠ "all" then
      r1.filter (fun a => assistantStatusHit a statusFilter)
    else r1
  let r3 := if dateFilter ≠ "all" then
      r2.filter (fun a => dateFilterHit dateFilter today0 (getSafeCreatedAt a nowMs))
    else r2
  (r3, 1)

end AssistantsPage

/-- C3 counterexample: the claim asserts that every record kind is
stored newest-first after a successful fetch, but the admins fetch
(part_000 line 68) stores the normalized list without reversing it:
on the two-record body `[1, 2]` the stored collection is `[1, 2]`,
not the reversed `[2, 1]`. -/
theorem admins_fetch_does_not_reverse :
    (fetchAdminsStep (Except.ok (Json.arr [Json.num 1, Json.num 2]))).admins =
      [Json.num 1, Json.num 2] ∧
    (fetchAdminsStep (Except.ok (Json.arr [Json.num 1, Json.num 2]))).admins ≠
      [Json.num 2, Json.num 1] := by
  refine ⟨rfl, ?_⟩
  intro h
  simp [fetchAdminsStep, extractAdminsFromResponse, Json.asArray] at h

/-- C3 (amended): the users, assistants and payments fetches store the
reversed normalized collection (newest first) in both the raw and the
filtered state cells, once per fetch; the admins fetch stores the
normalized collection in insertion order, unreversed; and the derived
view recomputation performs no further reversal: with every filter at
its bypass value it returns the stored list unchanged. -/
theorem fetch_reversal_once (body : Json) (users : List User)
    (assistants : List Assistant) (t0 n : Int) :
    (fetchUsersStep (Except.ok body)).users =
      (extractUsersFromResponse body).reverse ∧
    (fetchUsersStep (Except.ok body)).filteredUsers =
      (extractUsersFromResponse body).reverse ∧
    (fetchAssistantsStep (Except.ok body)).assistants =
      (extractAssistantsFromResponse body).reverse ∧
    (fetchPaymentsStep (Except.ok body)).payments =
      (extractPaymentsFromResponse body).reverse ∧
    (fetchAdminsStep (Except.ok body)).admins =
      extractAdminsFromResponse body ∧
    (UsersPage.applyUsersFilters users "" "all" "all" t0 n).1 = users ∧
    (AssistantsPage.applyAssistantsFilters assistants "" "all" "all" t0 n).1 =
      assistants := by
  exact ⟨rfl, rfl, rfl, rfl, rfl, rfl, rfl⟩

/-- C8 counterexample: the claim asserts that every view redirects on a
401 fetch failure, but the users fetch error branch (Users.tsx lines
144-161) only shows a message for status 401 and performs no
navigation: the outcome carries no redirect (and the assistants page
behaves the same way). -/
theorem users_fetch_401_no_redirect :
    (fetchUsersStep (Except.error 401)).redirect = none ∧
    (fetchAssistantsStep (Except.error 401)).redirect = none ∧
    (fetchUsersStep (Except.error 401)).users = [] := by
  exact ⟨rfl, rfl, rfl⟩

/-- C8 (amended): on any fetch failure every view empties its displayed
collection (no stale records); the admins view redirects to /login and
the payments view to /, exactly when the status is 401, while the
users and assistants views never redirect. -/
theorem fetch_error_collections_and_redirects (status : Nat) :
    (fetchAdminsStep (Except.error status)).admins = [] ∧
    (fetchUsersStep (Except.error status)).users = [] ∧
    (fetchUsersStep (Except.error status)).filteredUsers = [] ∧
    (fetchAssistantsStep (Except.error status)).assistants = [] ∧
    (fetchPaymentsStep (Except.error status)).payments = [] ∧
    (fetchPaymentsStep (Except.error status)).filteredPayments = [] ∧
    (fetchAdminsStep (Except.error 401)).redirect = some "/login" ∧
    (fetchPaymentsStep (Except.error 401)).redirect = some "/" ∧
    (status ≠ 401 → (fetchAdminsStep (Except.error status)).redirect = none) ∧
    (status ≠ 401 → (fetchPaymentsStep (Except.error status)).redirect = none) ∧
    (fetchUsersStep (Except.error status)).redirect = none ∧
    (fetchAssistantsStep (Except.error status)).redirect = none := by
  refine ⟨rfl, rfl, rfl, rfl, rfl, rfl, rfl, rfl, ?_, ?_, rfl, rfl⟩
  · intro h
    simp [fetchAdminsStep, h]
  · intro h
    simp [fetchPaymentsStep, h]

/-- C8 witness: the amended theorem applied at status 403, discharging
the two non-401 hypotheses there. -/
theorem fetch_error_collections_and_redirects_witness :
    (fetchAdminsStep (Except.error 403)).redirect = none ∧
    (fetchPaymentsStep (Except.error 403)).redirect = none ∧
    (fetchAdminsStep (Except.error 403)).admins = [] := by
  have h := fetch_error_collections_and_redirects 403
  exact ⟨h.2.2.2.2.2.2.2.2.1 (by decide), h.2.2.2.2.2.2.2.2.2.1 (by decide), h.1⟩

/-
Pagination.  Both paginated pages hold `itemsPerPage` in a useState
initialised to 10 and never changed.
-/

/-- The fixed page size used by the users and assistants pages. -/
def itemsPerPage : Nat := 10

/-- Models `l.slice(a, b)` for 0 ≤ a ≤ b: the elements with index in
[a, b). -/
def jsSlice (l : List α) (a b : Nat) : List α :=
  (l.drop a).take (b - a)

/-- Users.tsx lines 453-458: the desktop table renders
`filteredUsers.slice(indexOfFirstItem, indexOfLastItem)` where
`indexOfLastItem = currentPage * itemsPerPage` and `indexOfFirstItem =
indexOfLastItem - itemsPerPage`. -/
def usersDesktopSlice (filteredUsers : List User) (currentPage : Nat) :
    List User :=
  jsSlice filteredUsers (currentPage * itemsPerPage - itemsPerPage)
    (currentPage * itemsPerPage)

/-- part_001 lines 493-501: same computation on the assistants page. -/
def assistantsDesktopSlice (filteredAssistants : List Assistant)
    (currentPage : Nat) : List Assistant :=
  jsSlice filteredAssistants (currentPage * itemsPerPage - itemsPerPage)
    (currentPage * itemsPerPage)

/-- Users.tsx lines 1404-1538 (payments section): the desktop table
maps over the whole of `filteredPayments`; there is no page state and
no slice on this page. -/
def paymentsDesktopRows (filteredPayments : List Payment) : List Payment :=
  filteredPayments

/-- Eleven indistinct payment records, enough to overflow one page. -/
def elevenPayments : List Payment :=
  List.replicate 11 { _id := "p" }

/-- C4 counterexample: the claim asserts that every list-bearing view
renders exactly the 10-record page slice on desktop, but the payments
desktop view renders every filtered record: with eleven filtered
payments it renders eleven rows, more than any single page slice of
size 10 could hold. -/
theorem payments_desktop_renders_all_rows :
    (paymentsDesktopRows elevenPayments).length = 11 ∧
    paymentsDesktopRows elevenPayments ≠ jsSlice elevenPayments 0 10 := by
  refine ⟨rfl, ?_⟩
  intro h
  have hl : (paymentsDesktopRows elevenPayments).length =
      (jsSlice elevenPayments 0 10).length := by rw [h]
  simp [paymentsDesktopRows, jsSlice, elevenPayments] at hl

/-- C4 (amended): the users and assistants pages paginate with the
fixed page size 10, their desktop views render exactly the slice
[(page-1)*10, page*10) of the filtered sequence, and every run of
their filter effect (triggered by any change of search term,
categorical filter, date filter or records) resets the current page to
1; the payments and admins desktop views render the whole filtered
sequence with no pagination stage at all. -/
theorem pagination_slice_and_reset (lu : List User) (la : List Assistant)
    (lp : List Payment) (p : Nat) (s pf df : String) (t0 n : Int) :
    itemsPerPage = 10 ∧
    (1 ≤ p → usersDesktopSlice lu p = (lu.drop ((p - 1) * 10)).take 10) ∧
    (1 ≤ p → assistantsDesktopSlice la p = (la.drop ((p - 1) * 10)).take 10) ∧
    (UsersPage.applyUsersFilters lu s pf df t0 n).2 = 1 ∧
    (AssistantsPage.applyAssistantsFilters la s pf df t0 n).2 = 1 ∧
    paymentsDesktopRows lp = lp := by
  refine ⟨rfl, ?_, ?_, rfl, rfl, rfl⟩
  · intro hp
    have h1 : p * itemsPerPage - itemsPerPage = (p - 1) * 10 := by
      simp only [itemsPerPage]; omega
    have h2 : p * itemsPerPage - (p * itemsPerPage - itemsPerPage) = 10 := by
      simp only [itemsPerPage]; omega
    unfold usersDesktopSlice jsSlice
    rw [h2, h1]
  · intro hp
    have h1 : p * itemsPerPage - itemsPerPage = (p - 1) * 10 := by
      simp only [itemsPerPage]; omega
    have h2 : p * itemsPerPage - (p * itemsPerPage - itemsPerPage) = 10 := by
      simp only [itemsPerPage]; omega
    unfold assistantsDesktopSlice jsSlice
    rw [h2, h1]

/-- C4 witness: the amended theorem applied at page 2 of a concrete
21-record filtered users list, discharging the page bound there. -/
theorem pagination_slice_and_reset_witness :
    usersDesktopSlice (List.replicate 21 { _id := "u" }) 2 =
      ((List.replicate 21 ({ _id := "u" } : User)).drop 10).take 10 := by
  have h := pagination_slice_and_reset (List.replicate 21 { _id := "u" })
    [] [] 2 "" "" "" 0 0
  simpa using h.2.1 (by decide)

/-- C5: date buckets are exact with midnight-aligned boundaries.  For
any local midnight `today0`, a record created one second before it
(23:59:59 of the previous day) is excluded by the today bucket and
included by both the yesterday bucket (the 24-hour window before the
midnight) and the last-7-days bucket; the midnight instant itself
belongs to today and to last-7-days (inclusive of today). -/
theorem date_buckets_exact (today0 : Int) :
    dateFilterHit "today" today0 (today0 - 1000) = false ∧
    dateFilterHit "yesterday" today0 (today0 - 1000) = true ∧
    dateFilterHit "last7" today0 (today0 - 1000) = true ∧
    dateFilterHit "today" today0 today0 = true ∧
    dateFilterHit "yesterday" today0 today0 = false ∧
    dateFilterHit "last7" today0 today0 = true := by
  refine ⟨?_, ?_, ?_, ?_, ?_, ?_⟩ <;>
    simp [dateFilterHit, dayMs] <;> omega

/-
Action dispatch.  The persisted auth token lives in localforage; both
mutating handlers are modelled as functions of that storage cell.  The
dispatch value records whether a request is sent and with what body,
or whether the handler returned early.
-/

/-- The decision taken by the delete-admin handler before any network
activity. -/
inductive DeleteDispatch where
  | cancelled
  | blocked (message : String)
  | send (id : String)
deriving Repr, DecidableEq

/-- part_000 lines 90-108: the handler returns if the confirmation
dialog is declined; it then reads the persisted token and blocks with
a message when the token is falsy (absent or empty), sending nothing;
otherwise it posts the delete request with body {id}. -/
def handleDeleteAdminDispatch (token : Option String) (confirmed : Bool)
    (adminId : String) : DeleteDispatch :=
  if !confirmed then .cancelled
  else if !jsOptTruthy token then .blocked "Authentication required"
  else .send adminId

/-- The status argument of the verify-payment handler. -/
inductive VerifyStatus where
  | completed
  | failed
deriving Repr, DecidableEq

/-- The decision taken by the verify-payment handler before any
network activity. -/
inductive VerifyDispatch where
  | blocked (message : String)
  | send (paymentId : String) (status : VerifyStatus)
deriving Repr, DecidableEq

/-- Users.tsx lines 1108-1125: the handler blocks only when the
rejection note trims to empty and the status is failed; it never reads
the persisted token (the parameter is the storage cell available to
it, which the body ignores), and otherwise posts {paymentId, status}.
The blocked branch returns before any state update. -/
def handleVerifyPaymentDispatch (_token : Option String) (paymentId : String)
    (verificationNotes : String) (status : VerifyStatus) : VerifyDispatch :=
  if jsTrim verificationNotes = "" && status == VerifyStatus.failed then
    .blocked "Please provide a reason for rejection"
  else .send paymentId status

/-- C6: a reject attempt whose note is empty or whitespace-only is
blocked client-side with the precondition message and sends no
request, while an approve attempt proceeds to the request regardless
of the note. -/
theorem reject_requires_note (token : Option String) (paymentId notes : String)
    (hnote : jsTrim notes = "") :
    handleVerifyPaymentDispatch token paymentId notes VerifyStatus.failed =
      VerifyDispatch.blocked "Please provide a reason for rejection" ∧
    (∀ anyNotes : String,
      handleVerifyPaymentDispatch token paymentId anyNotes
        VerifyStatus.completed = VerifyDispatch.send paymentId
          VerifyStatus.completed) := by
  constructor
  · simp [handleVerifyPaymentDispatch, hnote]
  · intro anyNotes
    simp [handleVerifyPaymentDispatch]

/-- C6 witness: the theorem applied to a whitespace-only note,
discharging the trimmed-empty hypothesis by evaluation. -/
theorem reject_requires_note_witness :
    handleVerifyPaymentDispatch none "p1" "  " VerifyStatus.failed =
      VerifyDispatch.blocked "Please provide a reason for rejection" ∧
    handleVerifyPaymentDispatch none "p1" "  " VerifyStatus.completed =
      VerifyDispatch.send "p1" VerifyStatus.completed := by
  have h := reject_requires_note none "p1" "  " (by decide)
  exact ⟨h.1, h.2 "  "⟩

/-- C9 counterexample: the claim asserts that both mutating handlers
consult the persisted token and block when it is absent, but the
verify-payment handler performs no token check: with the token cell
empty it still dispatches the request. -/
theorem verify_payment_ignores_token :
    handleVerifyPaymentDispatch none "p1" "note" VerifyStatus.completed =
      VerifyDispatch.send "p1" VerifyStatus.completed ∧
    handleVerifyPaymentDispatch none "p1" "note" VerifyStatus.failed =
      VerifyDispatch.send "p1" VerifyStatus.failed := by
  exact ⟨rfl, rfl⟩

/-- C9 (amended): the delete-admin handler consults the persisted
token: when the token is absent (or empty, which is equally falsy) the
confirmed action is blocked with the message Authentication required
and no request is sent, and a truthy token lets the request through;
the verify-payment handler dispatches identically whatever the token
cell holds, consulting nothing. -/
theorem token_gate_delete_only (token : Option String) (adminId pid notes : String)
    (st : VerifyStatus) (htok : jsOptTruthy token = true) :
    handleDeleteAdminDispatch none true adminId =
      DeleteDispatch.blocked "Authentication required" ∧
    handleDeleteAdminDispatch (some "") true adminId =
      DeleteDispatch.blocked "Authentication required" ∧
    handleDeleteAdminDispatch token true adminId = DeleteDispatch.send adminId ∧
    handleVerifyPaymentDispatch token pid notes st =
      handleVerifyPaymentDispatch none pid notes st := by
  refine ⟨rfl, rfl, ?_, rfl⟩
  simp [handleDeleteAdminDispatch, htok]

/-- C9 witness: the amended theorem applied at a concrete token value,
discharging the truthiness hypothesis by evaluation. -/
theorem token_gate_delete_only_witness :
    handleDeleteAdminDispatch (some "tok") true "a1" =
      DeleteDispatch.send "a1" ∧
    handleDeleteAdminDispatch none true "a1" =
      DeleteDispatch.blocked "Authentication required" := by
  have h := token_gate_delete_only (some "tok") "a1" "p1" "" VerifyStatus.completed
    (by decide)
  exact ⟨h.2.2.1, h.1⟩

/-
Delete success continuation and completed-payments aggregate.
-/

/-- The state effect of a successful delete: part_000 lines 110-111
filter the in-memory collection by identifier; no re-fetch is issued
anywhere in the handler. -/
structure DeleteSuccessEffect where
  admins : List Admin
  refetchIssued : Bool
deriving Repr, DecidableEq

/-- part_000 lines 95-117, success path: the collection keeps exactly
the records whose identifier differs from the deleted one. -/
def handleDeleteAdminSuccess (admins : List Admin) (adminId : String) :
    DeleteSuccessEffect :=
  { admins := admins.filter (fun a => a._id != adminId),
    refetchIssued := false }

/-- Removing the records that share the identifier of a member of a
list with pairwise distinct identifiers shortens it by exactly one. -/
theorem filter_ne_id_length (l : List Admin) (i : String)
    (hnd : (l.map Admin._id).Nodup) (hx : i ∈ l.map Admin._id) :
    (l.filter (fun a => a._id != i)).length + 1 = l.length := by
  induction l with
  | nil => simp at hx
  | cons a rest ih =>
    rw [List.map_cons, List.nodup_cons] at hnd
    obtain ⟨ha, hnd2⟩ := hnd
    rw [List.map_cons, List.mem_cons] at hx
    rcases hx with h | h
    · subst h
      have hrest : rest.filter (fun b => b._id != a._id) = rest := by
        apply List.filter_eq_self.mpr
        intro b hb
        simp only [bne_iff_ne, ne_eq]
        intro hbi
        exact ha (by rw [← hbi]; exact List.mem_map_of_mem Admin._id hb)
      simp [List.filter_cons, hrest]
    · have hai : (a._id != i) = true := by
        simp only [bne_iff_ne, ne_eq]
        intro e
        exact ha (by rw [e]; exact h)
      have hih := ih hnd2 h
      have hstep : List.filter (fun b => b._id != i) (a :: rest) =
          a :: List.filter (fun b => b._id != i) rest := by
        simp [List.filter_cons, hai]
      rw [hstep]
      simp only [List.length_cons]
      omega

/-- C7: for a collection with unique identifiers, a confirmed delete
of admin X that succeeds leaves the collection exactly one record
shorter, with no record carrying the identifier of X, and issues no
re-fetch. -/
theorem delete_admin_removes_exactly_one (admins : List Admin) (x : Admin)
    (hnd : (admins.map Admin._id).Nodup) (hx : x ∈ admins) :
    (handleDeleteAdminSuccess admins x._id).admins.length + 1 =
      admins.length ∧
    (∀ a ∈ (handleDeleteAdminSuccess admins x._id).admins, a._id ≠ x._id) ∧
    (handleDeleteAdminSuccess admins x._id).refetchIssued = false := by
  refine ⟨?_, ?_, rfl⟩
  · exact filter_ne_id_length admins x._id hnd (List.mem_map_of_mem Admin._id hx)
  · intro a ha
    have := List.of_mem_filter ha
    simpa [bne_iff_ne] using this

/-- C7 witness: the theorem applied to a concrete two-admin collection
with distinct identifiers, discharging both hypotheses by evaluation:
deleting a1 leaves exactly the other record and no re-fetch. -/
theorem delete_admin_removes_exactly_one_witness :
    (handleDeleteAdminSuccess [{ _id := "a1" }, { _id := "a2" }] "a1").admins.length
      + 1 = 2 ∧
    (handleDeleteAdminSuccess [{ _id := "a1" }, { _id := "a2" }] "a1").refetchIssued
      = false := by
  have h := delete_admin_removes_exactly_one
    [{ _id := "a1" }, { _id := "a2" }] { _id := "a1" } (by decide) (by decide)
  exact ⟨h.1, h.2.2⟩

/-- Users.tsx lines 1645-1647: the completed-payments total sums the
safe amount over the payments whose safe status is completed, read
from the unfiltered raw collection. -/
def totalCompletedAmount (payments : List Payment) : Int :=
  ((payments.filter
    (fun p => PaymentsPage.getSafeStatus p == PayStatus.completed)).map
      PaymentsPage.getSafeAmount).sum

/-- C10: for a payment whose charged amount is absent or zero and
whose plan price is a nonzero value, the safe-amount accessor returns
the plan price (not zero), and the completed-payments total counts the
plan price for such a record. -/
theorem safe_amount_plan_price_fallback (p : Payment) (pr : Int)
    (rest : List Payment)
    (hamt : p.amount = none ∨ p.amount = some 0)
    (hpr : p.planPrice = some pr) (hpr0 : pr ≠ 0)
    (hst : PaymentsPage.getSafeStatus p = PayStatus.completed) :
    PaymentsPage.getSafeAmount p = pr ∧
    totalCompletedAmount (p :: rest) = pr + totalCompletedAmount rest := by
  have hamt2 : PaymentsPage.getSafeAmount p = pr := by
    rcases hamt with h | h <;>
      simp [PaymentsPage.getSafeAmount, jsNumOr, h, hpr, hpr0]
  refine ⟨hamt2, ?_⟩
  simp [totalCompletedAmount, List.filter_cons, hst, hamt2]

/-- C10 witness: the theorem applied to a concrete completed payment
with no charged amount and plan price 50, discharging every
hypothesis: the displayed amount and the one-element total are 50. -/
theorem safe_amount_plan_price_fallback_witness :
    PaymentsPage.getSafeAmount
      { _id := "p1", planPrice := some 50, status := some PayStatus.completed } =
      50 ∧
    totalCompletedAmount
      [{ _id := "p1", planPrice := some 50, status := some PayStatus.completed }] =
      50 + totalCompletedAmount [] := by
  have h := safe_amount_plan_price_fallback
    { _id := "p1", planPrice := some 50, status := some PayStatus.completed }
    50 [] (Or.inl rfl) rfl (by decide) rfl
  exact h
